import Mathlib

/-!
Shallow embedding of the instrumented transport layer of probe-cli:
the measurexlite connection tracing code (`Trace`, the stream and
datagram connection wrappers, the byte accounting map, the archival
network events) and the netxlite uTLS support (`NewUTLSConn`,
`HandshakeContext`).

Go machine integers (int, int64) are modelled as `Int`; Go slices that
can be nil are modelled as `Option (List _)` (with `none` for the nil
slice, since reflect-style zero checks and the tag normalization
distinguish nil from an allocated empty slice); Go maps are modelled as
association lists; fallible constructors return `Except`.
-/

/-- Errors observable in the embedded fragment. `errString` stands for
any other error coming from an underlying connection or handshake. -/
inductive Err where
  | utlsIncompatibleStdlibConfig (field : String)
  | utlsHandshakePanic
  | ctxCanceled
  | ctxDeadlineExceeded
  | errString (s : String)
deriving DecidableEq, Repr

/-- Rendering of an error as Go's Error() string would show it; for the
incompatible-config error this mirrors the fmt.Errorf wrapping in
NewUTLSConn. -/
def errMessage : Err → String
  | .utlsIncompatibleStdlibConfig f => "utls: incompatible stdlib config: field " ++ f ++ " is nonzero"
  | .utlsHandshakePanic => "utls: handshake panic"
  | .ctxCanceled => "context canceled"
  | .ctxDeadlineExceeded => "context deadline exceeded"
  | .errString s => s

/-- An x509 certificate pool, kept abstract: the code only moves it around. -/
structure CertPool where
  poolId : Nat
deriving DecidableEq, Repr

/-- One field of the standard library TLS config as seen through
reflection: its name and whether its value is non-zero. -/
structure TLSConfigField where
  name : String
  nonZero : Bool
deriving DecidableEq, Repr

/-- The standard library tls.Config. The five fields NewUTLSConn copies
are modelled with their values; `NextProtos` and `RootCAs` use `Option`
so that a nil slice/pointer (the reflect zero value) is `none`. The
remaining, open-ended set of stdlib fields only matters through the
reflection zero-check, so it is modelled as the list `otherFields` of
(name, nonZero) pairs in declaration order. -/
structure TLSConfig where
  DynamicRecordSizingDisabled : Bool
  InsecureSkipVerify : Bool
  NextProtos : Option (List String)
  RootCAs : Option CertPool
  ServerName : String
  otherFields : List TLSConfigField
deriving DecidableEq, Repr

/-- The allow-list of stdlib config fields honored by NewUTLSConn,
mirroring the supportedFields map. -/
def supportedFields : List String :=
  ["DynamicRecordSizingDisabled", "InsecureSkipVerify", "NextProtos", "RootCAs", "ServerName"]

/-- The sequence of (name, nonZero) pairs the reflection loop in
NewUTLSConn iterates over: every field of the stdlib config. A string is
zero iff empty, a Bool iff false, a slice or pointer iff nil. -/
def configFields (c : TLSConfig) : List TLSConfigField :=
  [⟨"DynamicRecordSizingDisabled", c.DynamicRecordSizingDisabled⟩,
   ⟨"InsecureSkipVerify", c.InsecureSkipVerify⟩,
   ⟨"NextProtos", c.NextProtos.isSome⟩,
   ⟨"RootCAs", c.RootCAs.isSome⟩,
   ⟨"ServerName", !(c.ServerName == "")⟩] ++ c.otherFields

/-- The loop body of NewUTLSConn: skip zero-valued fields, skip
allow-listed fields, fail on the first remaining field, returning its
name. -/
def firstIncompatibleField : List TLSConfigField → Option String
  | [] => none
  | f :: rest =>
    if f.nonZero = false then firstIncompatibleField rest
    else if f.name ∈ supportedFields then firstIncompatibleField rest
    else some f.name

/-- The uTLS engine configuration built by NewUTLSConn; only the five
allow-listed fields are ever copied, everything else stays at the
engine's defaults. -/
structure UTLSConfig where
  DynamicRecordSizingDisabled : Bool
  InsecureSkipVerify : Bool
  RootCAs : Option CertPool
  NextProtos : Option (List String)
  ServerName : String
deriving DecidableEq, Repr

/-- NewUTLSConn's config validation and translation: scan every stdlib
config field; any non-zero field outside the allow-list aborts
construction with the incompatible-stdlib-config error naming it;
otherwise build the engine config from the five allow-listed values. -/
def NewUTLSConn (config : TLSConfig) : Except Err UTLSConfig :=
  match firstIncompatibleField (configFields config) with
  | some name => .error (.utlsIncompatibleStdlibConfig name)
  | none => .ok {
      DynamicRecordSizingDisabled := config.DynamicRecordSizingDisabled
      InsecureSkipVerify := config.InsecureSkipVerify
      RootCAs := config.RootCAs
      NextProtos := config.NextProtos
      ServerName := config.ServerName }

/-- Outcome of one run of the underlying handshake function: it returns
nil, returns an error, or panics. -/
inductive HandshakeOutcome where
  | ok
  | fails (e : Err)
  | panics
deriving DecidableEq, Repr

/-- What the goroutine spawned by HandshakeContext delivers on the
buffered error channel: the handshake function's own result, except that
a recovered panic is converted to ErrUTLSHandshakePanic. -/
def recoverToError : HandshakeOutcome → Option Err
  | .ok => none
  | .fails e => some e
  | .panics => some .utlsHandshakePanic

/-- The underlying handshake call: how many abstract time steps it takes
until it returns (or panics), and what it then does. -/
structure HandshakeFn where
  duration : Nat
  outcome : HandshakeOutcome
deriving DecidableEq, Repr

/-- A context as seen by the select in HandshakeContext: the abstract
time at which its Done channel closes (none if it never does) and the
error its Err() method reports once cancelled. An already-cancelled
context has `cancelAt = some 0`. -/
structure GoContext where
  cancelAt : Option Nat
  cancelErr : Err
deriving DecidableEq, Repr

/-- HandshakeContext: race the goroutine's error channel against the
context's Done channel and return whichever resolves first. The error
channel becomes ready at fn.duration; Done at ctx.cancelAt. When both
are ready at the same step, the select picks nondeterministically,
modelled by `tieBreakCtx`. -/
def HandshakeContext (fn : HandshakeFn) (ctx : GoContext) (tieBreakCtx : Bool) : Option Err :=
  match ctx.cancelAt with
  | none => recoverToError fn.outcome
  | some t =>
    if t < fn.duration then some ctx.cancelErr
    else if fn.duration < t then recoverToError fn.outcome
    else if tieBreakCtx then some ctx.cancelErr
    else recoverToError fn.outcome

/-- Length of a possibly-nil Go slice. -/
def goSliceLen : Option (List String) → Nat
  | none => 0
  | some l => l.length

/-- Elements of a possibly-nil Go slice, in order. -/
def goSliceElems : Option (List String) → List String
  | none => []
  | some l => l

/-- copyAndNormalizeTags: map a nil (or empty) tags slice to an
allocated empty slice and return a fresh copy built by appending every
element to a new non-nil empty slice; the result is therefore never nil
and preserves the order of the tags. -/
def copyAndNormalizeTags (tags : Option (List String)) : Option (List String) :=
  let tags := if goSliceLen tags ≤ 0 then some [] else tags
  some (goSliceElems tags)

/-- Modelled from the spec: `NewFailure` (its file is not under src/)
maps an optional error to the optional normalized error classification
carried by archival events, nil on success. -/
def NewFailure : Option Err → Option String
  | none => none
  | some e => some (errMessage e)

/-- Operation tag of a stream read event (netxlite.ReadOperation). -/
def ReadOperation : String := "read"

/-- Operation tag of a stream write event (netxlite.WriteOperation). -/
def WriteOperation : String := "write"

/-- Operation tag of a datagram receive event (netxlite.ReadFromOperation). -/
def ReadFromOperation : String := "read_from"

/-- Operation tag of a datagram send event (netxlite.WriteToOperation). -/
def WriteToOperation : String := "write_to"

/-- model.ArchivalNetworkEvent: the immutable record emitted for one
network operation. Offsets T0 and T are abstract time values. -/
structure ArchivalNetworkEvent where
  Address : String
  Failure : Option String
  NumBytes : Int
  Operation : String
  Proto : String
  T0 : Nat
  T : Nat
  TransactionID : Int
  Tags : Option (List String)
deriving DecidableEq, Repr

/-- NewArchivalNetworkEvent: build the archival event exactly as the
constructor does, normalizing the tags into a fresh non-nil copy. -/
def NewArchivalNetworkEvent (index : Int) (started : Nat) (operation : String)
    (network : String) (address : String) (count : Int) (err : Option Err)
    (finished : Nat) (tags : Option (List String)) : ArchivalNetworkEvent :=
  { Address := address
    Failure := NewFailure err
    NumBytes := count
    Operation := operation
    Proto := network
    T0 := started
    T := finished
    TransactionID := index
    Tags := copyAndNormalizeTags tags }

/-- The bounded networkEvent channel of a Trace: a FIFO buffer (front of
the list is the oldest element) with a fixed capacity. -/
structure EventQueue where
  capacity : Nat
  events : List ArchivalNetworkEvent
deriving DecidableEq, Repr

/-- The non-blocking send (select with a default branch): enqueue when
the buffer has room, silently drop the event otherwise. -/
def trySend (q : EventQueue) (ev : ArchivalNetworkEvent) : EventQueue :=
  if q.events.length < q.capacity then { q with events := q.events ++ [ev] } else q

/-- The Trace state touched by the conn-tracing code: the transaction
index, the tags slice, the bounded event channel, and the bytes-received
map (an association list keyed by "ADDRESS PROTO"). The zero time is
abstracted away: wrappers receive the started/finished offsets directly. -/
structure Trace where
  Index : Int
  tags : Option (List String)
  networkEvent : EventQueue
  bytesReceivedMap : List (String × Int)
deriving DecidableEq, Repr

/-- Go map update m[key] += v on the association-list model: add to the
existing entry, or create the entry with the missing-key zero value. -/
def mapAddInt : List (String × Int) → String → Int → List (String × Int)
  | [], key, v => [(key, v)]
  | kv :: rest, key, v =>
    if kv.1 = key then (kv.1, kv.2 + v) :: rest else kv :: mapAddInt rest key v

/-- Go map assignment out[key] = v on the association-list model. -/
def mapSet : List (String × Int) → String → Int → List (String × Int)
  | [], key, v => [(key, v)]
  | kv :: rest, key, v =>
    if kv.1 = key then (key, v) :: rest else kv :: mapSet rest key v

/-- Go map read m[key] as an Option (none when the key is absent). -/
def mapLookup : List (String × Int) → String → Option Int
  | [], _ => none
  | kv :: rest, key => if kv.1 = key then some kv.2 else mapLookup rest key

/-- The network-name normalization switch in
updateBytesReceivedMapNetConn: collapse "udp4"/"udp6" to "udp" and
"tcp4"/"tcp6" to "tcp"; any other name is left unchanged. -/
def normalizeNetwork (network : String) : String :=
  if network = "udp" ∨ network = "udp4" ∨ network = "udp6" then "udp"
  else if network = "tcp" ∨ network = "tcp4" ∨ network = "tcp6" then "tcp"
  else network

/-- updateBytesReceivedMapNetConn: normalize the network name, build the
"ADDRESS NETWORK" key, and add count to the stored total. -/
def updateBytesReceivedMapNetConn (tx : Trace) (network address : String) (count : Int) : Trace :=
  let network := normalizeNetwork network
  let key := address ++ " " ++ network
  { tx with bytesReceivedMap := mapAddInt tx.bytesReceivedMap key count }

/-- CloneBytesReceivedMap: build a fresh map holding every entry of the
internal bytes-received map. -/
def CloneBytesReceivedMap (tx : Trace) : List (String × Int) :=
  tx.bytesReceivedMap.foldl (fun out kv => mapSet out kv.1 kv.2) []

/-- A non-nil net.Addr: its Network() and String() values. -/
structure NetAddr where
  network : String
  addrString : String
deriving DecidableEq, Repr

/-- addrStringIfNotNil: the String() of the address, or "" when the
address is nil. -/
def addrStringIfNotNil : Option NetAddr → String
  | none => ""
  | some a => a.addrString

/-- The event connTrace.Read emits (before the non-blocking send). -/
def readEvent (tx : Trace) (network address : String) (started finished : Nat)
    (count : Int) (err : Option Err) : ArchivalNetworkEvent :=
  NewArchivalNetworkEvent tx.Index started ReadOperation network address count err finished tx.tags

/-- connTrace.Read: capture the remote endpoint and the start offset,
run the underlying read (whose result is the count/err input), emit the
read event without blocking, update the bytes-received accounting, and
return the underlying result unchanged. -/
def connTraceRead (tx : Trace) (remote : NetAddr) (started finished : Nat)
    (count : Int) (err : Option Err) : Trace × Int × Option Err :=
  let network := remote.network
  let addr := remote.addrString
  let ev := readEvent tx network addr started finished count err
  let tx := { tx with networkEvent := trySend tx.networkEvent ev }
  let tx := updateBytesReceivedMapNetConn tx network addr count
  (tx, count, err)

/-- The event connTrace.Write emits. -/
def writeEvent (tx : Trace) (network address : String) (started finished : Nat)
    (count : Int) (err : Option Err) : ArchivalNetworkEvent :=
  NewArchivalNetworkEvent tx.Index started WriteOperation network address count err finished tx.tags

/-- connTrace.Write: same shape as Read but with the write operation tag
and no accounting update (accounting tracks only received bytes). -/
def connTraceWrite (tx : Trace) (remote : NetAddr) (started finished : Nat)
    (count : Int) (err : Option Err) : Trace × Int × Option Err :=
  let network := remote.network
  let addr := remote.addrString
  let ev := writeEvent tx network addr started finished count err
  let tx := { tx with networkEvent := trySend tx.networkEvent ev }
  (tx, count, err)

/-- maybeUpdateBytesReceivedMapUDPLikeConn: update accounting with the
sender address reported by the read, skipping the update entirely when
that address is nil. -/
def maybeUpdateBytesReceivedMapUDPLikeConn (tx : Trace) (addr : Option NetAddr) (count : Int) : Trace :=
  match addr with
  | none => tx
  | some a => updateBytesReceivedMapNetConn tx a.network a.addrString count

/-- The event udpLikeConnTrace.ReadFrom emits: the protocol is always
"udp" and the address is the sender address, or "" when that is nil. -/
def readFromEvent (tx : Trace) (started finished : Nat) (count : Int)
    (addr : Option NetAddr) (err : Option Err) : ArchivalNetworkEvent :=
  NewArchivalNetworkEvent tx.Index started ReadFromOperation "udp" (addrStringIfNotNil addr) count err finished tx.tags

/-- udpLikeConnTrace.ReadFrom: run the underlying read (whose
count/addr/err result is the input), emit the read_from event without
blocking, maybe update accounting keyed by the reported sender address,
and return the underlying result unchanged. -/
def udpLikeConnTraceReadFrom (tx : Trace) (started finished : Nat)
    (count : Int) (addr : Option NetAddr) (err : Option Err) :
    Trace × Int × Option NetAddr × Option Err :=
  let ev := readFromEvent tx started finished count addr err
  let tx := { tx with networkEvent := trySend tx.networkEvent ev }
  let tx := maybeUpdateBytesReceivedMapUDPLikeConn tx addr count
  (tx, count, addr, err)

/-- The event udpLikeConnTrace.WriteTo emits. -/
def writeToEvent (tx : Trace) (started finished : Nat) (address : String)
    (count : Int) (err : Option Err) : ArchivalNetworkEvent :=
  NewArchivalNetworkEvent tx.Index started WriteToOperation "udp" address count err finished tx.tags

/-- udpLikeConnTrace.WriteTo: emit the write_to event for the
destination address without blocking and return the underlying result
unchanged; no accounting update. -/
def udpLikeConnTraceWriteTo (tx : Trace) (started finished : Nat) (addr : NetAddr)
    (count : Int) (err : Option Err) : Trace × Int × Option Err :=
  let ev := writeToEvent tx started finished addr.addrString count err
  let tx := { tx with networkEvent := trySend tx.networkEvent ev }
  (tx, count, err)

/-- The receive loop of Trace.NetworkEvents: repeatedly receive from the
buffer, appending to the output, until the buffer is empty; returns the
output and the drained buffer contents. -/
def drainLoop (queued out : List ArchivalNetworkEvent) :
    List ArchivalNetworkEvent × List ArchivalNetworkEvent :=
  match queued with
  | [] => (out, [])
  | ev :: rest => drainLoop rest (out ++ [ev])

/-- Trace.NetworkEvents: drain every buffered event in FIFO order,
returning them and the Trace with an empty buffer. -/
def NetworkEvents (tx : Trace) : List ArchivalNetworkEvent × Trace :=
  let r := drainLoop tx.networkEvent.events []
  (r.1, { tx with networkEvent := { tx.networkEvent with events := r.2 } })

/-- A net.Conn as seen by MaybeClose: closing it yields this error. -/
structure GoNetConn where
  closeErr : Option Err
deriving DecidableEq, Repr

/-- MaybeClose: call Close only when the connection is non-nil. The
Bool output records whether Close was invoked. -/
def MaybeClose : Option GoNetConn → Option Err × Bool
  | none => (none, false)
  | some c => (c.closeErr, true)

/-- A model.UDPLikeConn as seen by MaybeCloseUDPLikeConn. -/
structure GoUDPLikeConn where
  closeErr : Option Err
deriving DecidableEq, Repr

/-- MaybeCloseUDPLikeConn: call Close only when the connection is
non-nil. The Bool output records whether Close was invoked. -/
def MaybeCloseUDPLikeConn : Option GoUDPLikeConn → Option Err × Bool
  | none => (none, false)
  | some c => (c.closeErr, true)

/-! ## Concrete example values used by the witnesses -/

/-- A configuration setting only allow-listed fields; the remaining
stdlib fields (a sample of them shown) are zero. -/
def allowlistedConfig : TLSConfig :=
  { DynamicRecordSizingDisabled := true
    InsecureSkipVerify := true
    NextProtos := some ["h2", "http/1.1"]
    RootCAs := some ⟨1⟩
    ServerName := "dns.google"
    otherFields := [⟨"Rand", false⟩, ⟨"Time", false⟩, ⟨"Certificates", false⟩,
                    ⟨"GetClientCertificate", false⟩, ⟨"MinVersion", false⟩] }

/-- A sample archival event. -/
def sampleEvent : ArchivalNetworkEvent :=
  NewArchivalNetworkEvent 1 0 ReadOperation "tcp" "1.2.3.4:443" 10 none 1 none

/-- A Trace whose event buffer already holds its full capacity. -/
def fullTrace : Trace :=
  { Index := 1
    tags := none
    networkEvent := { capacity := 1, events := [sampleEvent] }
    bytesReceivedMap := [] }

/-- A freshly created Trace with nothing recorded yet. -/
def emptyTrace : Trace :=
  { Index := 1
    tags := none
    networkEvent := { capacity := 16, events := [] }
    bytesReceivedMap := [] }

/-! ## Helper lemmas -/

/-- The scan reports no field exactly when every non-zero field is
allow-listed. -/
theorem firstIncompatibleField_eq_none_iff (l : List TLSConfigField) :
    firstIncompatibleField l = none ↔ ∀ f ∈ l, f.nonZero = true → f.name ∈ supportedFields := by
  induction l with
  | nil => simp [firstIncompatibleField]
  | cons f rest ih =>
    by_cases hz : f.nonZero = false
    · simp [firstIncompatibleField, hz, ih]
    · by_cases hm : f.name ∈ supportedFields
      · simp [firstIncompatibleField, hz, hm, ih]
      · simp [firstIncompatibleField, hz, hm]

/-- When the scan reports a field name, that name belongs to a non-zero
field of the list that is outside the allow-list. -/
theorem firstIncompatibleField_eq_some (l : List TLSConfigField) (n : String)
    (h : firstIncompatibleField l = some n) :
    ∃ f ∈ l, f.name = n ∧ f.nonZero = true ∧ f.name ∉ supportedFields := by
  induction l with
  | nil => simp [firstIncompatibleField] at h
  | cons f rest ih =>
    by_cases hz : f.nonZero = false
    · rw [firstIncompatibleField, if_pos hz] at h
      obtain ⟨g, hg, hprop⟩ := ih h
      exact ⟨g, List.mem_cons_of_mem _ hg, hprop⟩
    · by_cases hm : f.name ∈ supportedFields
      · rw [firstIncompatibleField, if_neg hz, if_pos hm] at h
        obtain ⟨g, hg, hprop⟩ := ih h
        exact ⟨g, List.mem_cons_of_mem _ hg, hprop⟩
      · rw [firstIncompatibleField, if_neg hz, if_neg hm] at h
        refine ⟨f, List.mem_cons_self _ _, Option.some.inj h, ?_, hm⟩
        revert hz; cases f.nonZero <;> simp

/-- drainLoop appends the whole queue to the accumulator, in order, and
leaves nothing queued. -/
theorem drainLoop_spec (queued : List ArchivalNetworkEvent) :
    ∀ out, drainLoop queued out = (out ++ queued, []) := by
  induction queued with
  | nil => intro out; simp [drainLoop]
  | cons ev rest ih => intro out; simp [drainLoop, ih]

/-! ## Claim theorems -/

/-- C1: NewUTLSConn fails with the incompatible-stdlib-config error
naming an offending field if and only if some field of the standard
configuration is non-zero and outside the allow-list
{DynamicRecordSizingDisabled, InsecureSkipVerify, NextProtos, RootCAs,
ServerName}; when every non-zero field is allow-listed, construction
succeeds and the engine configuration holds exactly the allow-listed
field values. -/
theorem newUTLSConn_allowlist_check (c : TLSConfig) :
    ((∃ u, NewUTLSConn c = .ok u) ↔
      ∀ f ∈ configFields c, f.nonZero = true → f.name ∈ supportedFields)
    ∧ (∀ e, NewUTLSConn c = .error e →
        ∃ f ∈ configFields c, e = .utlsIncompatibleStdlibConfig f.name ∧
          f.nonZero = true ∧ f.name ∉ supportedFields ∧
          errMessage e = "utls: incompatible stdlib config: field " ++ f.name ++ " is nonzero")
    ∧ ((∀ f ∈ configFields c, f.nonZero = true → f.name ∈ supportedFields) →
        NewUTLSConn c = .ok
          ⟨c.DynamicRecordSizingDisabled, c.InsecureSkipVerify,
           c.RootCAs, c.NextProtos, c.ServerName⟩) := by
  refine ⟨⟨?_, ?_⟩, ?_, ?_⟩
  · rintro ⟨u, hu⟩
    rw [NewUTLSConn] at hu
    cases hfi : firstIncompatibleField (configFields c) with
    | some name => rw [hfi] at hu; cases hu
    | none => exact (firstIncompatibleField_eq_none_iff _).mp hfi
  · intro hall
    exact ⟨_, by rw [NewUTLSConn, (firstIncompatibleField_eq_none_iff _).mpr hall]⟩
  · intro e he
    rw [NewUTLSConn] at he
    cases hfi : firstIncompatibleField (configFields c) with
    | none => rw [hfi] at he; cases he
    | some name =>
      rw [hfi] at he
      obtain ⟨f, hf, hname, hnz, hmem⟩ := firstIncompatibleField_eq_some _ _ hfi
      refine ⟨f, hf, ?_, hnz, hmem, ?_⟩
      · cases he; rw [hname]
      · cases he; rw [hname, errMessage]
  · intro hall
    rw [NewUTLSConn, (firstIncompatibleField_eq_none_iff _).mpr hall]

/-- Witness for C1: constructing with a configuration whose non-zero
fields are all allow-listed succeeds and copies exactly those values. -/
theorem newUTLSConn_allowlist_check_witness :
    NewUTLSConn allowlistedConfig = .ok
      ⟨true, true, some ⟨1⟩, some ["h2", "http/1.1"], "dns.google"⟩ :=
  (newUTLSConn_allowlist_check allowlistedConfig).2.2 (by decide)

/-- C2: when the underlying handshake function panics and the context
never cancels, HandshakeContext returns the dedicated
ErrUTLSHandshakePanic value for every handshake duration and scheduler
choice, and that value is distinct from ordinary handshake errors and
from both cancellation errors. -/
theorem handshakeContext_panic_recovered (d : Nat) (ce : Err) (tb : Bool) :
    HandshakeContext ⟨d, .panics⟩ ⟨none, ce⟩ tb = some .utlsHandshakePanic
    ∧ (∀ s, (Err.utlsHandshakePanic == Err.errString s) = false)
    ∧ (Err.utlsHandshakePanic == Err.ctxCanceled) = false
    ∧ (Err.utlsHandshakePanic == Err.ctxDeadlineExceeded) = false := by
  refine ⟨rfl, ?_, by decide, by decide⟩
  intro s
  simp [BEq.beq]

/-- C3: a context already cancelled when HandshakeContext is invoked
(its Done channel is ready at step 0) makes HandshakeContext return that
context's own cancellation error without waiting for the underlying
handshake function (of any positive duration and any outcome, including
success) to finish. -/
theorem handshakeContext_already_cancelled (fn : HandshakeFn) (ce : Err) (tb : Bool)
    (h : 0 < fn.duration) :
    HandshakeContext fn ⟨some 0, ce⟩ tb = some ce := by
  simp [HandshakeContext, h]

/-- Witness for C3: an already-cancelled context against a handshake of
one step that would succeed yields the context's cancellation error. -/
theorem handshakeContext_already_cancelled_witness :
    HandshakeContext ⟨1, .ok⟩ ⟨some 0, .ctxCanceled⟩ false = some .ctxCanceled :=
  handshakeContext_already_cancelled ⟨1, .ok⟩ .ctxCanceled false (by decide)

/-- C4: when the Trace's event buffer already holds its full capacity of
events, a wrapped Read or Write still completes, the new event is
silently dropped, the queued events (and the whole queue) are unchanged,
and the caller gets exactly the underlying result, with no error added. -/
theorem fullQueue_emit_drops (tx : Trace) (remote : NetAddr) (s f : Nat)
    (count : Int) (err : Option Err)
    (h : tx.networkEvent.events.length = tx.networkEvent.capacity) :
    (connTraceRead tx remote s f count err).1.networkEvent = tx.networkEvent
    ∧ (connTraceRead tx remote s f count err).2 = (count, err)
    ∧ (connTraceWrite tx remote s f count err).1.networkEvent = tx.networkEvent
    ∧ (connTraceWrite tx remote s f count err).2 = (count, err) := by
  have hfull : ¬ tx.networkEvent.events.length < tx.networkEvent.capacity := by omega
  refine ⟨?_, rfl, ?_, rfl⟩ <;>
    simp [connTraceRead, connTraceWrite, trySend, hfull, updateBytesReceivedMapNetConn]

/-- Witness for C4: a Trace whose one-slot buffer holds one event drops
the new event on Read and Write and passes the underlying result through. -/
theorem fullQueue_emit_drops_witness :
    (connTraceRead fullTrace ⟨"tcp", "1.2.3.4:443"⟩ 2 3 5 none).1.networkEvent = fullTrace.networkEvent
    ∧ (connTraceRead fullTrace ⟨"tcp", "1.2.3.4:443"⟩ 2 3 5 none).2 = (5, none)
    ∧ (connTraceWrite fullTrace ⟨"tcp", "1.2.3.4:443"⟩ 2 3 5 none).1.networkEvent = fullTrace.networkEvent
    ∧ (connTraceWrite fullTrace ⟨"tcp", "1.2.3.4:443"⟩ 2 3 5 none).2 = (5, none) :=
  fullQueue_emit_drops fullTrace ⟨"tcp", "1.2.3.4:443"⟩ 2 3 5 none (by decide)

/-- C5: recording received bytes normalizes "tcp4"/"tcp6" to "tcp" and
"udp4"/"udp6" to "udp", keys the accounting map by "ADDRESS PROTO", and
accumulates counts; in particular recording 100 bytes for
("1.2.3.4:443", "tcp4") and then 50 for ("1.2.3.4:443", "tcp6") on a
fresh Trace yields a cloned map mapping "1.2.3.4:443 tcp" to 150. -/
theorem recordReceivedBytes_normalizes_and_accumulates (tx : Trace) (addr : String) (count : Int) :
    updateBytesReceivedMapNetConn tx "tcp4" addr count = updateBytesReceivedMapNetConn tx "tcp" addr count
    ∧ updateBytesReceivedMapNetConn tx "tcp6" addr count = updateBytesReceivedMapNetConn tx "tcp" addr count
    ∧ updateBytesReceivedMapNetConn tx "udp4" addr count = updateBytesReceivedMapNetConn tx "udp" addr count
    ∧ updateBytesReceivedMapNetConn tx "udp6" addr count = updateBytesReceivedMapNetConn tx "udp" addr count
    ∧ (updateBytesReceivedMapNetConn tx "tcp" addr count).bytesReceivedMap
        = mapAddInt tx.bytesReceivedMap (addr ++ " " ++ "tcp") count
    ∧ mapLookup (CloneBytesReceivedMap (updateBytesReceivedMapNetConn
        (updateBytesReceivedMapNetConn emptyTrace "tcp4" "1.2.3.4:443" 100)
        "tcp6" "1.2.3.4:443" 50)) "1.2.3.4:443 tcp" = some 150 := by
  have h4 : normalizeNetwork "tcp4" = "tcp" := by decide
  have h6 : normalizeNetwork "tcp6" = "tcp" := by decide
  have hu4 : normalizeNetwork "udp4" = "udp" := by decide
  have hu6 : normalizeNetwork "udp6" = "udp" := by decide
  have ht : normalizeNetwork "tcp" = "tcp" := by decide
  have hu : normalizeNetwork "udp" = "udp" := by decide
  refine ⟨?_, ?_, ?_, ?_, ?_, by decide⟩ <;>
    simp [updateBytesReceivedMapNetConn, h4, h6, hu4, hu6, ht, hu]

/-- C6: NetworkEvents returns every queued event in FIFO order and
leaves the queue empty (without touching capacity or accounting), so a
second drain right after returns the empty sequence. -/
theorem networkEvents_drains_fifo (tx : Trace) :
    (NetworkEvents tx).1 = tx.networkEvent.events
    ∧ (NetworkEvents tx).2.networkEvent.events = []
    ∧ (NetworkEvents (NetworkEvents tx).2).1 = []
    ∧ (NetworkEvents tx).2.networkEvent.capacity = tx.networkEvent.capacity
    ∧ (NetworkEvents tx).2.bytesReceivedMap = tx.bytesReceivedMap := by
  refine ⟨?_, ?_, ?_, rfl, rfl⟩ <;> simp [NetworkEvents, drainLoop_spec]

/-- C7: the instrumented Read, Write, ReadFrom and WriteTo return
exactly the byte count, peer address and error produced by the
underlying connection call, for every Trace state. -/
theorem wrappers_return_underlying_result (tx : Trace) (remote : NetAddr) (s f : Nat)
    (count : Int) (err : Option Err) (addr : Option NetAddr) (dest : NetAddr) :
    (connTraceRead tx remote s f count err).2 = (count, err)
    ∧ (connTraceWrite tx remote s f count err).2 = (count, err)
    ∧ (udpLikeConnTraceReadFrom tx s f count addr err).2 = (count, addr, err)
    ∧ (udpLikeConnTraceWriteTo tx s f dest count err).2 = (count, err) :=
  ⟨rfl, rfl, rfl, rfl⟩

/-- C8: a datagram ReadFrom whose underlying read reports a nil sender
address leaves the bytes-received accounting map entirely unchanged, and
the emitted event's address field is the empty string. -/
theorem readFrom_nil_addr_skips_accounting (tx : Trace) (s f : Nat)
    (count : Int) (err : Option Err) :
    (udpLikeConnTraceReadFrom tx s f count none err).1.bytesReceivedMap = tx.bytesReceivedMap
    ∧ maybeUpdateBytesReceivedMapUDPLikeConn tx none count = tx
    ∧ (readFromEvent tx s f count none err).Address = "" :=
  ⟨rfl, rfl, rfl⟩

/-- C9: every emitted event's tags field is the normalized copy of the
Trace's tags at emission time: never nil (the nil slice becomes an
allocated empty one) and preserving the tags' order and contents. -/
theorem event_tags_are_normalized_copy (tx : Trace) (network address : String) (s f : Nat)
    (count : Int) (err : Option Err) (tags : Option (List String)) :
    (copyAndNormalizeTags tags).isSome = true
    ∧ goSliceElems (copyAndNormalizeTags tags) = goSliceElems tags
    ∧ copyAndNormalizeTags none = some []
    ∧ (readEvent tx network address s f count err).Tags = copyAndNormalizeTags tx.tags
    ∧ (writeEvent tx network address s f count err).Tags = copyAndNormalizeTags tx.tags
    ∧ (readFromEvent tx s f count none err).Tags = copyAndNormalizeTags tx.tags
    ∧ (writeToEvent tx s f address count err).Tags = copyAndNormalizeTags tx.tags := by
  refine ⟨rfl, ?_, rfl, rfl, rfl, rfl, rfl⟩
  cases tags with
  | none => rfl
  | some l => cases l <;> simp [copyAndNormalizeTags, goSliceLen, goSliceElems]

/-- C10: MaybeClose and MaybeCloseUDPLikeConn return a nil error and do
not invoke Close when the connection is nil (the Bool result records
whether Close ran); with a non-nil connection they invoke Close and
return exactly its error. -/
theorem maybeClose_nil_safe :
    MaybeClose none = (none, false)
    ∧ (∀ c : GoNetConn, MaybeClose (some c) = (c.closeErr, true))
    ∧ MaybeCloseUDPLikeConn none = (none, false)
    ∧ (∀ c : GoUDPLikeConn, MaybeCloseUDPLikeConn (some c) = (c.closeErr, true)) :=
  ⟨rfl, fun _ => rfl, rfl, fun _ => rfl⟩
